import Mathlib

/-!
Shallow embedding of the video_genai repository (src/bot.py,
src/utils/api_clients.py, src/utils/gemini_client.py,
src/utils/video_processor.py, src/config.py).

The repository is a Telegram bot that submits an image plus a text prompt to
the Stability image-to-video HTTP API, polls a result endpoint until the video
is ready or a retry budget runs out, and falls back through a fixed chain of
generation strategies.  The embedding models the HTTP world through oracles:
an oracle maps the index of a poll attempt to the outcome of that GET request.
Bodies of HTTP responses are modelled as lists of bytes (`List Nat`), and a
raised Python exception is modelled with `Except`.
-/

namespace VideoGenai

/-- Outcome of one GET against the result endpoint
`/v2beta/image-to-video/result/...`: either a response with a status code and
a body, or a transport error (any exception raised by the request). -/
inductive GetOutcome where
  | resp (status : Nat) (body : List Nat)
  | exn
deriving DecidableEq

/-- What one iteration of a poll loop does after its GET call: return the body
as the ready video, consume the attempt and continue, or break out of the
loop. -/
inductive IterStep where
  | ready (body : List Nat)
  | cont
  | abort
deriving DecidableEq

/-- Loop-body classification of `DebugVideoBot.poll_stability_result`
(src/bot.py lines 270-282): a 200 response whose body exceeds 1000 bytes is
saved and returned; a 200 response with a body of at most 1000 bytes falls
through the inner `if` and the iteration ends (the attempt is consumed); a 202
response hits `continue`; any other status hits `break`; an exception from the
GET is caught and the loop continues. -/
def bot_classify : GetOutcome → IterStep
  | GetOutcome.resp status body =>
    if status = 200 then
      if body.length > 1000 then IterStep.ready body else IterStep.cont
    else if status = 202 then IterStep.cont
    else IterStep.abort
  | GetOutcome.exn => IterStep.cont

/-- Loop-body classification of `VideoAPIClients._poll_stability_result`
(src/utils/api_clients.py lines 84-95): any 200 response is saved via
`_save_video_file` and returned, with no size check; 202 continues; any other
status breaks; an exception from the GET is caught and the loop continues. -/
def api_classify : GetOutcome → IterStep
  | GetOutcome.resp status body =>
    if status = 200 then IterStep.ready body
    else if status = 202 then IterStep.cont
    else IterStep.abort
  | GetOutcome.exn => IterStep.cont

/-- Loop-body classification of `GeminiVideoClient._poll_stability_result`
(src/utils/gemini_client.py lines 168-179), textually identical to the
api_clients variant: any 200 response is returned with no size check. -/
def gemini_classify : GetOutcome → IterStep
  | GetOutcome.resp status body =>
    if status = 200 then IterStep.ready body
    else if status = 202 then IterStep.cont
    else IterStep.abort
  | GetOutcome.exn => IterStep.cont

/-- The poll loop `for attempt in range(max_attempts)` shared by
`VideoAPIClients._poll_stability_result` and
`GeminiVideoClient._poll_stability_result`.  First argument of the result is
the returned value (`some body` when a ready video was returned, `none` after
a `break` or after the budget is exhausted, both of which reach `return None`);
second argument counts the GET requests actually issued. -/
def pollLoop (classify : GetOutcome → IterStep) (oracle : Nat → GetOutcome) :
    Nat → Nat → Option (List Nat) × Nat
  | _, 0 => (none, 0)
  | attempt, remaining + 1 =>
    match classify (oracle attempt) with
    | IterStep.ready body => (some body, 1)
    | IterStep.abort => (none, 1)
    | IterStep.cont =>
      let rest := pollLoop classify oracle (attempt + 1) remaining
      (rest.1, rest.2 + 1)

/-- The `VideoAPIClients._poll_stability_result` loop, called with its default
budget `max_attempts = 30`. -/
def api_poll_stability_result (oracle : Nat → GetOutcome) (max_attempts : Nat) :
    Option (List Nat) × Nat :=
  pollLoop api_classify oracle 0 max_attempts

/-- The `GeminiVideoClient._poll_stability_result` loop, called with its
default budget `max_attempts = 30`. -/
def gemini_poll_stability_result (oracle : Nat → GetOutcome) (max_attempts : Nat) :
    Option (List Nat) × Nat :=
  pollLoop gemini_classify oracle 0 max_attempts

/-- A Python exception relevant to the bot module: the NameError raised when
an unbound name such as `asyncio` is evaluated. -/
inductive PyExn where
  | nameError
deriving DecidableEq

/-- src/bot.py lines 1-7 import os, logging, tempfile, time, traceback and the
telegram symbols; the name `asyncio` is never bound in the module namespace,
so evaluating `asyncio.sleep` inside this module raises NameError. -/
def bot_asyncio_defined : Bool := false

/-- The loop of `DebugVideoBot.poll_stability_result` (src/bot.py lines
260-289).  Each iteration begins with `await asyncio.sleep(5)`, which is
outside the inner try/except; when the name `asyncio` is unbound this raises
NameError before the GET, and the exception propagates out of the loop.  When
the name is bound the iteration proceeds to the GET and is classified by
`bot_classify`.  The second component counts the GET requests issued. -/
def bot_pollAux (asyncio_ok : Bool) (oracle : Nat → GetOutcome) :
    Nat → Nat → Except PyExn (Option (List Nat)) × Nat
  | _, 0 => (Except.ok none, 0)
  | attempt, remaining + 1 =>
    match asyncio_ok with
    | false => (Except.error PyExn.nameError, 0)
    | true =>
      match bot_classify (oracle attempt) with
      | IterStep.ready body => (Except.ok (some body), 1)
      | IterStep.abort => (Except.ok none, 1)
      | IterStep.cont =>
        let rest := bot_pollAux asyncio_ok oracle (attempt + 1) remaining
        (rest.1, rest.2 + 1)

/-- `DebugVideoBot.poll_stability_result` as the module actually executes it:
the `asyncio` name is unbound in src/bot.py (see `bot_asyncio_defined`). -/
def bot_poll_stability_result (oracle : Nat → GetOutcome) (max_attempts : Nat) :
    Except PyExn (Option (List Nat)) × Nat :=
  bot_pollAux bot_asyncio_defined oracle 0 max_attempts

/-- Outcome of the job-submission POST in `DebugVideoBot.try_stability_ai`:
a response carrying a status code and the generation id parsed from the JSON
body, or an exception. -/
inductive SubmitOutcome where
  | resp (status : Nat) (id : String)
  | exn
deriving DecidableEq

/-- `DebugVideoBot.try_stability_ai` (src/bot.py lines 213-254).  Returns
`None` when the Stability key is missing; on a 200 submission response it
calls `poll_stability_result` (default budget 20); any exception escaping the
body, including the NameError from the poll loop, is caught by the enclosing
`except Exception` handler and converted to `None`; a non-200 submission
status logs the error and returns `None`. -/
def try_stability_ai (key_present : Bool) (submit : SubmitOutcome)
    (oracle : Nat → GetOutcome) : Option (List Nat) :=
  match key_present with
  | false => none
  | true =>
    match submit with
    | SubmitOutcome.exn => none
    | SubmitOutcome.resp status _ =>
      if status = 200 then
        match bot_poll_stability_result oracle 20 with
        | (Except.ok r, _) => r
        | (Except.error _, _) => none
      else none

/-- One generation strategy of the bot orchestrator, in the vocabulary of
src/bot.py: `try_stability_ai` with the raw prompt, `try_google_ai_fallback`
(Gemini enhancement then Stability), and `try_fallback_method` (local ffmpeg
slideshow). -/
inductive Method where
  | stability_direct
  | google_enhanced
  | local_fallback
deriving DecidableEq

/-- Observable outcome of one `DebugVideoBot.try_video_generation` run:
the produced video path with the method that produced it (when any), the
methods attempted in order, whether the aggregate all-methods-failed message
was sent, and whether the `finally` block deleted the temporary image and
removed the session entry. -/
structure OrchOutcome where
  result : Option (String × Method)
  attempts : List Method
  aggregate_failure_reported : Bool
  image_deleted : Bool
  session_removed : Bool
deriving DecidableEq

/-- `DebugVideoBot.try_video_generation` (src/bot.py lines 161-211),
parameterized by the value each strategy call would return (`None` on
failure).  The code tries Method 1 `try_stability_ai(image_path, prompt)`,
then Method 2 `try_google_ai_fallback`, then Method 3 `try_fallback_method`,
returning at the first non-None result; when all three return None it sends
the aggregate message listing the failure; the `finally` block always deletes
the stored image file and removes the session entry. -/
def try_video_generation (m1 m2 m3 : Option String) : OrchOutcome :=
  match m1 with
  | some v =>
    ⟨some (v, Method.stability_direct), [Method.stability_direct], false, true, true⟩
  | none =>
    match m2 with
    | some v =>
      ⟨some (v, Method.google_enhanced),
        [Method.stability_direct, Method.google_enhanced], false, true, true⟩
    | none =>
      match m3 with
      | some v =>
        ⟨some (v, Method.local_fallback),
          [Method.stability_direct, Method.google_enhanced, Method.local_fallback],
          false, true, true⟩
      | none =>
        ⟨none,
          [Method.stability_direct, Method.google_enhanced, Method.local_fallback],
          true, true, true⟩

/-- `VideoAPIClients.generate_video_from_image_prompt`
(src/utils/api_clients.py lines 18-34), parameterized by the value the
Gemini-enhanced path and the direct Stability path would return.  It tries the
Gemini-enhanced generation first and, only if that yields None, falls back to
`stability_image_to_video` with the raw prompt; there is no third strategy,
and when both fail the method returns None.  The second component records the
strategies attempted in order. -/
def generate_video_from_image_prompt (gemini_result direct_result : Option String) :
    Option String × List Method :=
  match gemini_result with
  | some v => (some v, [Method.google_enhanced])
  | none => (direct_result, [Method.google_enhanced, Method.stability_direct])

/-- `DebugVideoBot.send_video_result` (src/bot.py lines 369-390), returning
whether `os.unlink(video_path)` was reached.  When the file is under the
50 MiB Telegram limit the code sends the video (`reply_video` may raise);
otherwise it sends the too-large notice (`reply_text` may raise); the unlink
sits after that if/else inside the try block, so a raising reply jumps to the
except handler and skips the unlink. -/
def send_video_result (file_size : Nat) (reply_video_raises reply_text_raises : Bool) :
    Bool :=
  if file_size < 50 * 1024 * 1024 then
    match reply_video_raises with
    | true => false
    | false => true
  else
    match reply_text_raises with
    | true => false
    | false => true

/-- `GeminiVideoClient.enhance_prompt_with_vision`
(src/utils/gemini_client.py lines 46-79), with the whole try block (file read,
image decode, `generate_content` call, `response.text`) modelled as an
`Except` oracle producing the raw response text.  Any exception is caught and
the original user prompt is returned; otherwise the text is stripped and, if
the stripped text is empty (falsy), the original prompt is returned. -/
def enhance_prompt_with_vision (provider : Except Unit String) (user_prompt : String) :
    String :=
  match provider with
  | Except.error _ => user_prompt
  | Except.ok t =>
    let enhanced := t.trim
    if enhanced = "" then user_prompt else enhanced

/-- `VideoProcessor.validate_image` (src/utils/video_processor.py lines 6-22),
with the decodability of the file as a boolean input: `Image.open` plus
`verify` raising is caught by the except handler, which returns False; a
decodable file larger than `10 * 1024 * 1024` bytes returns False; otherwise
True.  The embedding is a total function: every path returns a boolean. -/
def validate_image (decodable : Bool) (file_size : Nat) : Bool :=
  match decodable with
  | false => false
  | true => if file_size > 10 * 1024 * 1024 then false else true

/-- Width and height of an image in pixels. -/
structure Dims where
  w : Nat
  h : Nat
deriving DecidableEq

/-- Dimension behavior of PIL `Image.thumbnail(max_size)` as used by
`VideoProcessor.optimize_image`: when the target dimensions are at least the
current ones the call returns immediately and the image keeps its size;
otherwise the image is shrunk to fit, with the exact shrunken dimensions kept
abstract through the `shrink` parameter (they involve float aspect-ratio
rounding that no claim here depends on). -/
def thumbnail_dims (shrink : Dims → Dims → Dims) (img maxd : Dims) : Dims :=
  if img.w ≤ maxd.w ∧ img.h ≤ maxd.h then img else shrink img maxd

/-- Dimension behavior of `VideoProcessor.optimize_image`
(src/utils/video_processor.py lines 24-44) with its default
`max_size = (1024, 1024)`.  The RGB conversion and JPEG re-encode do not
change dimensions; `ok` is whether the body ran without an exception — on any
exception the original path is returned, so the dimensions are the input
ones. -/
def optimize_image_dims (shrink : Dims → Dims → Dims) (ok : Bool) (img : Dims) : Dims :=
  match ok with
  | true => thumbnail_dims shrink img ⟨1024, 1024⟩
  | false => img

/-- Oracle of a provider whose result endpoint always answers 202, still
processing. -/
def always202 : Nat → GetOutcome := fun _ => GetOutcome.resp 202 []

/-- Oracle of a provider whose result endpoint always raises a transport
error. -/
def alwaysExn : Nat → GetOutcome := fun _ => GetOutcome.exn

/-- Oracle of a provider whose result endpoint always answers 200 with a
500-byte body, below the 1000-byte minimum video size of the bot variant. -/
def alwaysSmall200 : Nat → GetOutcome := fun _ => GetOutcome.resp 200 (List.replicate 500 0)

/-- Oracle of a provider whose result endpoint always answers 200 with an
empty body. -/
def alwaysEmpty200 : Nat → GetOutcome := fun _ => GetOutcome.resp 200 []

theorem pollLoop_cont_count (classify : GetOutcome → IterStep)
    (oracle : Nat → GetOutcome) (h : ∀ a, classify (oracle a) = IterStep.cont)
    (n a : Nat) : pollLoop classify oracle a n = (none, n) := by
  induction n generalizing a with
  | zero => rfl
  | succ r ih => simp [pollLoop, h, ih]

theorem bot_pollAux_cont_count (oracle : Nat → GetOutcome)
    (h : ∀ a, bot_classify (oracle a) = IterStep.cont)
    (n a : Nat) : bot_pollAux true oracle a n = (Except.ok none, n) := by
  induction n generalizing a with
  | zero => rfl
  | succ r ih => simp [bot_pollAux, h, ih]

theorem always202_cont (classify : GetOutcome → IterStep)
    (h : classify (GetOutcome.resp 202 []) = IterStep.cont) (a : Nat) :
    classify (always202 a) = IterStep.cont := h

theorem alwaysSmall200_bot_cont (a : Nat) :
    bot_classify (alwaysSmall200 a) = IterStep.cont := by
  simp only [alwaysSmall200, bot_classify, List.length_replicate]
  norm_num

/-- C1 counterexample: when all three strategies fail, the bot orchestrator
attempts its strategies in the order direct generation, then enhancement, then
local fallback — not the claimed order enhancement, then direct, then local —
and the api_clients orchestrator attempts only two strategies, with no local
fallback. -/
theorem orchestrator_order_counterexample :
    (try_video_generation none none none).attempts =
      [Method.stability_direct, Method.google_enhanced, Method.local_fallback] ∧
    (try_video_generation none none none).attempts ≠
      [Method.google_enhanced, Method.stability_direct, Method.local_fallback] ∧
    (generate_video_from_image_prompt none none).2 =
      [Method.google_enhanced, Method.stability_direct] := by
  refine ⟨rfl, ?_, rfl⟩
  decide

/-- C1 amended: the bot orchestrator attempts (1) direct generation against
the primary provider with the raw prompt, (2) enhancement-then-generate,
(3) the local ffmpeg fallback, in that fixed order, returns the first
strategy's success without invoking later strategies, and reports an
aggregate failure when all three fail; the api_clients orchestrator attempts
only (1) enhancement-then-generate and (2) direct generation, returning None
with no aggregate report when both fail. -/
theorem orchestrator_strategy_order :
    (∀ v m2 m3, try_video_generation (some v) m2 m3 =
      ⟨some (v, Method.stability_direct), [Method.stability_direct],
        false, true, true⟩) ∧
    (∀ v m3, try_video_generation none (some v) m3 =
      ⟨some (v, Method.google_enhanced),
        [Method.stability_direct, Method.google_enhanced], false, true, true⟩) ∧
    (∀ v, try_video_generation none none (some v) =
      ⟨some (v, Method.local_fallback),
        [Method.stability_direct, Method.google_enhanced, Method.local_fallback],
        false, true, true⟩) ∧
    try_video_generation none none none =
      ⟨none, [Method.stability_direct, Method.google_enhanced, Method.local_fallback],
        true, true, true⟩ ∧
    (∀ v s, generate_video_from_image_prompt (some v) s =
      (some v, [Method.google_enhanced])) ∧
    (∀ s, generate_video_from_image_prompt none s =
      (s, [Method.google_enhanced, Method.stability_direct])) :=
  ⟨fun _ _ _ => rfl, fun _ _ => rfl, fun _ => rfl, rfl, fun _ _ => rfl, fun _ => rfl⟩

/-- C2: in the bot variant, whenever the Stability key is present and the
submission POST is accepted with status 200, `try_stability_ai` still returns
None for every possible behavior of the result endpoint: the poll loop raises
NameError on the unbound name `asyncio` before its first GET, and the
enclosing exception handler converts it to None. -/
theorem try_stability_ai_accepted_submission_returns_none
    (id : String) (oracle : Nat → GetOutcome) :
    try_stability_ai true (SubmitOutcome.resp 200 id) oracle = none := rfl

/-- C3 counterexample: against a result endpoint whose every GET raises a
transport error, the poll loop of api_clients does not abort at the first
failed attempt: it issues all 30 GET calls before giving up, so a
transport-error attempt does not stop the loop. -/
theorem poll_transport_error_counterexample :
    api_poll_stability_result alwaysExn 30 = (none, 30) ∧ (30 : Nat) ≠ 1 :=
  ⟨pollLoop_cont_count api_classify alwaysExn (fun _ => rfl) 30 0, by decide⟩

/-- C3 amended: when a single poll attempt yields a status code other than
success (200) or still-processing (202), the poll loop aborts immediately
after that one GET and performs no further pollOnce calls, in both the
api_clients and the gemini_client variants; a transport error, by contrast,
does not abort: the attempt is consumed and polling continues with the
remaining budget. -/
theorem poll_failed_status_aborts (oracle : Nat → GetOutcome)
    (a r status : Nat) (body : List Nat) :
    (oracle a = GetOutcome.resp status body → status ≠ 200 → status ≠ 202 →
      pollLoop api_classify oracle a (r + 1) = (none, 1) ∧
      pollLoop gemini_classify oracle a (r + 1) = (none, 1)) ∧
    (oracle a = GetOutcome.exn →
      pollLoop api_classify oracle a (r + 1) =
        ((pollLoop api_classify oracle (a + 1) r).1,
          (pollLoop api_classify oracle (a + 1) r).2 + 1)) := by
  constructor
  · intro h h200 h202
    constructor
    · simp [pollLoop, h, api_classify, h200, h202]
    · simp [pollLoop, h, gemini_classify, h200, h202]
  · intro h
    simp [pollLoop, h, api_classify]

/-- Witness for C3 amended: a 404 at the first attempt stops both loops after
one GET; an always-raising endpoint consumes the attempt and recurses. -/
theorem poll_failed_status_aborts_witness :
    (pollLoop api_classify (fun _ => GetOutcome.resp 404 []) 0 (5 + 1) = (none, 1) ∧
      pollLoop gemini_classify (fun _ => GetOutcome.resp 404 []) 0 (5 + 1) = (none, 1)) ∧
    pollLoop api_classify (fun _ => GetOutcome.exn) 0 (5 + 1) =
      ((pollLoop api_classify (fun _ => GetOutcome.exn) (0 + 1) 5).1,
        (pollLoop api_classify (fun _ => GetOutcome.exn) (0 + 1) 5).2 + 1) :=
  ⟨(poll_failed_status_aborts (fun _ => GetOutcome.resp 404 []) 0 5 404 []).1 rfl
      (by decide) (by decide),
    (poll_failed_status_aborts (fun _ => GetOutcome.exn) 0 5 404 []).2 rfl⟩

/-- C4 counterexample: in the api_clients and gemini_client variants a 200
status response with an empty body — 0 bytes, at or below any minimum video
size threshold — is returned as the ready video result at the very first
poll: no byte-size guard exists in these variants. -/
theorem small_200_ready_counterexample :
    api_poll_stability_result alwaysEmpty200 30 = (some [], 1) ∧
    gemini_poll_stability_result alwaysEmpty200 30 = (some [], 1) := by
  constructor <;> rfl

/-- C4 amended: only the bot variant guards 200 responses with a minimum
byte-size threshold of 1000 bytes — there a 200 body of at most 1000 bytes is
not classified ready (the attempt is merely consumed) and a larger body is
returned as ready; in the api_clients and gemini_client variants every 200
response is returned as the ready result regardless of body size. -/
theorem ready_threshold_by_variant (body : List Nat) :
    (body.length ≤ 1000 → bot_classify (GetOutcome.resp 200 body) = IterStep.cont) ∧
    (1000 < body.length → bot_classify (GetOutcome.resp 200 body) = IterStep.ready body) ∧
    api_classify (GetOutcome.resp 200 body) = IterStep.ready body ∧
    gemini_classify (GetOutcome.resp 200 body) = IterStep.ready body := by
  refine ⟨?_, ?_, by simp [api_classify], by simp [gemini_classify]⟩
  · intro h
    simp [bot_classify, Nat.not_lt.mpr h]
  · intro h
    simp [bot_classify, h]

/-- Witness for C4 amended: the empty body falls below the bot threshold and
a 1001-byte body exceeds it. -/
theorem ready_threshold_by_variant_witness :
    bot_classify (GetOutcome.resp 200 []) = IterStep.cont ∧
    bot_classify (GetOutcome.resp 200 (List.replicate 1001 0)) =
      IterStep.ready (List.replicate 1001 0) :=
  ⟨(ready_threshold_by_variant []).1 (by simp),
    (ready_threshold_by_variant (List.replicate 1001 0)).2.1
      (by rw [List.length_replicate]; norm_num)⟩

/-- C5: the api_clients and gemini_client poll loops, run against a provider
that always answers 202 still-processing, terminate after exactly the attempt
budget of GET calls and report the timeout failure None; the same holds for
the bot loop body were the `asyncio` name bound; but the bot variant as
written raises NameError before its first GET, performing zero pollOnce calls
(its budget 20 shown here). -/
theorem poll_pending_exact_budget :
    (∀ n, api_poll_stability_result always202 n = (none, n)) ∧
    (∀ n, gemini_poll_stability_result always202 n = (none, n)) ∧
    (∀ n a, bot_pollAux true always202 a n = (Except.ok none, n)) ∧
    bot_poll_stability_result always202 20 = (Except.error PyExn.nameError, 0) :=
  ⟨fun n => pollLoop_cont_count api_classify always202 (fun _ => rfl) n 0,
    fun n => pollLoop_cont_count gemini_classify always202 (fun _ => rfl) n 0,
    fun n a => bot_pollAux_cont_count always202 (fun _ => rfl) n a,
    rfl⟩

/-- C6 counterexample: for a 2 MiB video (well under the 50 MiB limit) whose
outbound `reply_video` call raises a delivery error, `send_video_result`
never reaches the unlink: the temporary video file is not deleted on that
exit path. -/
theorem send_video_delivery_error_leak :
    send_video_result (2 * 1024 * 1024) true false = false := rfl

/-- C6 amended: on every exit path of `try_video_generation` the temporary
image file is deleted and the session entry removed (the `finally` block);
the produced video file is deleted whenever the outbound reply — the video
itself, or the too-large notice — completes without raising; but when the
reply raises a delivery error, the video temporary file is not deleted. -/
theorem cleanup_by_exit_path (m1 m2 m3 : Option String) (file_size : Nat) :
    (try_video_generation m1 m2 m3).image_deleted = true ∧
    (try_video_generation m1 m2 m3).session_removed = true ∧
    send_video_result file_size false false = true ∧
    (file_size < 50 * 1024 * 1024 → send_video_result file_size true false = false) := by
  refine ⟨?_, ?_, ?_, ?_⟩
  · cases m1 <;> cases m2 <;> cases m3 <;> rfl
  · cases m1 <;> cases m2 <;> cases m3 <;> rfl
  · by_cases h : file_size < 50 * 1024 * 1024 <;> simp [send_video_result, h]
  · intro h
    simp [send_video_result, h]

/-- Witness for C6 amended, at a run where every strategy fails and the video
is 1000 bytes. -/
theorem cleanup_by_exit_path_witness :
    (try_video_generation none none none).image_deleted = true ∧
    (try_video_generation none none none).session_removed = true ∧
    send_video_result 1000 false false = true ∧
    send_video_result 1000 true false = false :=
  ⟨(cleanup_by_exit_path none none none 1000).1,
    (cleanup_by_exit_path none none none 1000).2.1,
    (cleanup_by_exit_path none none none 1000).2.2.1,
    (cleanup_by_exit_path none none none 1000).2.2.2 (by norm_num)⟩

/-- C7: when the caption/vision provider call fails for any reason — any
exception raised anywhere in the try block — `enhance_prompt_with_vision`
returns the original user prompt unchanged instead of propagating the
error. -/
theorem enhance_failure_returns_original (user_prompt : String) :
    enhance_prompt_with_vision (Except.error ()) user_prompt = user_prompt := rfl

/-- C8: `validate_image` returns false when the bytes cannot be decoded as an
image and returns false when the file exceeds the configured maximum of
10 MiB; being a total boolean function, it raises on neither input. -/
theorem validate_image_fails_closed (decodable : Bool) (file_size : Nat) :
    (decodable = false → validate_image decodable file_size = false) ∧
    (10 * 1024 * 1024 < file_size → validate_image decodable file_size = false) := by
  constructor
  · intro h
    simp [validate_image, h]
  · intro h
    cases decodable
    · rfl
    · simp [validate_image, h]

/-- Witness for C8: an undecodable 1000-byte file and a decodable file one
byte over 10 MiB are both rejected. -/
theorem validate_image_fails_closed_witness :
    validate_image false 1000 = false ∧
    validate_image true (10 * 1024 * 1024 + 1) = false :=
  ⟨(validate_image_fails_closed false 1000).1 rfl,
    (validate_image_fails_closed true (10 * 1024 * 1024 + 1)).2 (by norm_num)⟩

/-- C9: for every decodable image whose dimensions already fit within the
default maxDimensions (1024, 1024), `optimize_image` keeps the dimensions
unchanged, for every possible shrink behavior on oversized images and whether
or not the body raises; hence a second application does not shrink the image
further. -/
theorem optimize_dims_noop_when_fits (shrink : Dims → Dims → Dims)
    (ok ok2 : Bool) (img : Dims) (hw : img.w ≤ 1024) (hh : img.h ≤ 1024) :
    optimize_image_dims shrink ok img = img ∧
    optimize_image_dims shrink ok2 (optimize_image_dims shrink ok img) =
      optimize_image_dims shrink ok img := by
  have base : ∀ b : Bool, optimize_image_dims shrink b img = img := by
    intro b
    cases b
    · rfl
    · simp [optimize_image_dims, thumbnail_dims, hw, hh]
  exact ⟨base ok, by rw [base ok, base ok2]⟩

/-- Witness for C9 at an 800 by 600 image, both applications succeeding. -/
theorem optimize_dims_noop_when_fits_witness :
    optimize_image_dims (fun _ _ => ⟨1, 1⟩) true ⟨800, 600⟩ = ⟨800, 600⟩ ∧
    optimize_image_dims (fun _ _ => ⟨1, 1⟩) true
        (optimize_image_dims (fun _ _ => ⟨1, 1⟩) true ⟨800, 600⟩) =
      optimize_image_dims (fun _ _ => ⟨1, 1⟩) true ⟨800, 600⟩ :=
  optimize_dims_noop_when_fits (fun _ _ => ⟨1, 1⟩) true true ⟨800, 600⟩
    (by norm_num) (by norm_num)

/-- C10: run against a provider that always answers 200 with a 500-byte body,
the bot loop body — were the `asyncio` name bound — treats each such response
as neither terminal success nor terminal failure, consuming all 20 attempts
and yielding the timeout result None; but the bot variant as written raises
NameError before the first status request, issuing zero GET calls. -/
theorem bot_small_200_consumes_budget :
    bot_pollAux true alwaysSmall200 0 20 = (Except.ok none, 20) ∧
    bot_poll_stability_result alwaysSmall200 20 = (Except.error PyExn.nameError, 0) :=
  ⟨bot_pollAux_cont_count alwaysSmall200 alwaysSmall200_bot_cont 20 0, rfl⟩

end VideoGenai
